import Mathlib

/-!
Shallow embedding of the push-notification chat server (server.js).

JavaScript `Map`s are modelled as insertion-ordered association lists with
string keys: `set` replaces in place or appends, `delete` removes the entry,
`get` returns the first (unique) match.  The on-disk documents
(`chat_sessions/<id>/session.json` and `online_users.json`) are modelled as
association-list components of the server state.  Socket handles are natural
numbers; emitted socket events are collected in a list.  Fallible storage
writes are modelled by an explicit success flag on the handlers that the
claims exercise on their failure path.
-/

namespace PushServer

/-- JS `Map.get`: first entry with the given key. -/
def mget {α : Type} (l : List (String × α)) (k : String) : Option α :=
  (l.find? (fun e => e.1 == k)).map (fun e => e.2)

/-- JS `Map.set`: replace in place if the key exists, else append. -/
def mset {α : Type} : List (String × α) → String → α → List (String × α)
  | [], k, v => [(k, v)]
  | e :: rest, k, v => if e.1 = k then (k, v) :: rest else e :: mset rest k v

/-- JS `Map.delete` / JS object `delete`: drop the entry with the given key. -/
def mdel {α : Type} (l : List (String × α)) (k : String) : List (String × α) :=
  l.filter (fun e => e.1 != k)

/-- Keys of an association list, in order. -/
def keys {α : Type} (l : List (String × α)) : List String :=
  l.map Prod.fst

theorem mget_cons {α : Type} (e : String × α) (l : List (String × α)) (k : String) :
    mget (e :: l) k = if e.1 = k then some e.2 else mget l k := by
  by_cases h : e.1 = k
  · have hb : (e.1 == k) = true := by simp [h]
    simp [mget, List.find?, hb, h]
  · have hb : (e.1 == k) = false := by simp [h]
    simp [mget, List.find?, hb, h]

theorem mget_mset_self {α : Type} (l : List (String × α)) (k : String) (v : α) :
    mget (mset l k v) k = some v := by
  induction l with
  | nil => simp [mset, mget_cons]
  | cons e rest ih =>
    by_cases h : e.1 = k
    · simp [mset, h, mget_cons]
    · simp [mset, h, mget_cons, ih]

theorem mget_mdel_self {α : Type} (l : List (String × α)) (k : String) :
    mget (mdel l k) k = none := by
  induction l with
  | nil => rfl
  | cons e rest ih =>
    by_cases h : e.1 = k
    · have hb : (e.1 != k) = false := by simp [h]
      simpa [mdel, List.filter, hb] using ih
    · have hb : (e.1 != k) = true := by simp [h]
      simpa [mdel, List.filter, hb, mget_cons, h] using ih

theorem mdel_idem {α : Type} (l : List (String × α)) (k : String) :
    mdel (mdel l k) k = mdel l k := by
  induction l with
  | nil => rfl
  | cons e rest ih =>
    by_cases h : e.1 = k
    · have hb : (e.1 != k) = false := by simp [h]
      simp [mdel, List.filter, hb]
    · have hb : (e.1 != k) = true := by simp [h]
      simp [mdel, List.filter, hb]

theorem keys_mset {α : Type} (l : List (String × α)) (k : String) (v : α) :
    keys (mset l k v) = if k ∈ keys l then keys l else keys l ++ [k] := by
  induction l with
  | nil => simp [mset, keys]
  | cons e rest ih =>
    by_cases h : e.1 = k
    · subst h
      simp [mset, keys]
    · have h2 : ¬ k = e.1 := fun hh => h hh.symm
      rw [mset, if_neg h]
      by_cases hm : k ∈ keys rest
      · simp only [keys, List.map_cons] at ih ⊢
        simp only [keys] at hm
        simp [ih, hm, h2, List.mem_cons]
      · simp only [keys, List.map_cons] at ih ⊢
        simp only [keys] at hm
        simp [ih, hm, h2, List.mem_cons]

theorem nodup_keys_mset {α : Type} (l : List (String × α)) (k : String) (v : α)
    (h : (keys l).Nodup) : (keys (mset l k v)).Nodup := by
  rw [keys_mset]
  by_cases hm : k ∈ keys l
  · simpa [hm] using h
  · simp only [hm, if_false]
    simpa [List.nodup_append, hm] using h

theorem nodup_keys_mdel {α : Type} (l : List (String × α)) (k : String)
    (h : (keys l).Nodup) : (keys (mdel l k)).Nodup :=
  h.sublist ((List.filter_sublist l).map Prod.fst)

/-- A message stored inside a session document.  User messages leave `type`
absent; the system messages appended by `log_off` carry `type = "system"`. -/
structure Message where
  id : String
  senderUserId : String
  receiverUserId : String
  message : String
  timestamp : String
  machineId : String
  type : Option String
deriving DecidableEq

/-- The content of a `chat_sessions/<sessionId>/session.json` document. -/
structure SessionData where
  sessionId : String
  machineId : String
  senderUserId : String
  receiverUserId : String
  createdAt : String
  messages : List Message
  participants : List String
deriving DecidableEq

/-- One entry of the persisted `online_users.json` snapshot. -/
structure OnlineRecord where
  machineId : String
  socketId : Nat
  lastSeen : String
  status : String
deriving DecidableEq

/-- The server's observable state: the two in-memory maps
(`activeConnections : machineId -> socket`, `userSessions : userId -> machineId`)
and the two kinds of persisted documents (session files keyed by sessionId and
the `online_users.json` snapshot keyed by userId). -/
structure ServerState where
  activeConnections : List (String × Nat)
  userSessions : List (String × String)
  sessions : List (String × SessionData)
  onlineUsers : List (String × OnlineRecord)
deriving DecidableEq

/-- Socket events emitted by the handlers; the first field is the socket the
event is emitted on. -/
inductive Event where
  | registration_success (sock : Nat) (msg : String)
  | registration_error (sock : Nat) (msg : String)
  | session_created (sock : Nat) (sessionId : String) (sessionData : SessionData) (msg : String)
  | session_error (sock : Nat) (msg : String)
  | new_chat_session (sock : Nat) (sessionId senderUserId msg : String)
  | message_sent (sock : Nat) (messageId sessionId : String)
  | message_error (sock : Nat) (msg : String)
  | new_message (sock : Nat) (sessionId : String) (m : Message) (senderUserId : String)
  | receiver_unavailable (sock : Nat) (msg receiverUserId : String)
  | log_off_success (sock : Nat) (msg userId machineId : String)
  | log_off_error (sock : Nat) (msg : String)
deriving DecidableEq

/-- `MAX_MESSAGE_LENGTH` configuration default (server.js line 281). -/
def MAX_MESSAGE_LENGTH : Nat := 2000

/-- `updateOnlineUsers` (server.js lines 306-336), success path: online inserts
or overwrites the user's record with status `"online"`; offline deletes the
entry.  The function emits no socket events and raises no error when the entry
is absent (`delete` on a missing key is a no-op). -/
def updateOnlineUsers (ou : List (String × OnlineRecord))
    (userId machineId : String) (sockId : Nat) (ts : String) (isOnline : Bool) :
    List (String × OnlineRecord) :=
  if isOnline then
    mset ou userId { machineId := machineId, socketId := sockId, lastSeen := ts, status := "online" }
  else
    mdel ou userId

/-- The empty server state at process start. -/
def initState : ServerState :=
  { activeConnections := [], userSessions := [], sessions := [], onlineUsers := [] }

/-- The `register_user` handler (server.js lines 352-379).  Validation uses JS
truthiness, so an empty string fails; on success both in-memory maps are set
and the persisted snapshot is updated. -/
def registerUser (st : ServerState) (sock : Nat) (machineId userId ts : String) :
    ServerState × List Event :=
  if machineId = "" ∨ userId = "" then
    (st, [Event.registration_error sock "Machine ID and User ID are required"])
  else
    ({ st with
        activeConnections := mset st.activeConnections machineId sock,
        userSessions := mset st.userSessions userId machineId,
        onlineUsers := updateOnlineUsers st.onlineUsers userId machineId sock ts true },
     [Event.registration_success sock "You are now online and can receive messages"])

/-- The receiver-online check of `create_chat_session` (server.js lines
391-401): the persisted snapshot must hold an entry for the receiver with
status `"online"`; a missing file behaves as an empty snapshot. -/
def receiverOnlineCheck (ou : List (String × OnlineRecord)) (receiverUserId : String) : Bool :=
  match mget ou receiverUserId with
  | some r => r.status == "online"
  | none => false

/-- The live-delivery lookup used by `create_chat_session`, `send_message` and
`log_off`: `userSessions.get(u)` must be truthy and present in
`activeConnections` (server.js lines 436-437, 487-488, 543-544). -/
def deliveryTarget (us : List (String × String)) (ac : List (String × Nat))
    (userId : String) : Option Nat :=
  match mget us userId with
  | some m => if m = "" then none else mget ac m
  | none => none

/-- The `create_chat_session` handler (server.js lines 382-449), success path
of storage.  The gate reads only the persisted snapshot; the in-memory maps
are consulted only for the best-effort `new_chat_session` notification. -/
def createChatSession (st : ServerState) (sock : Nat)
    (machineId senderUserId receiverUserId newSessionId ts : String) :
    ServerState × List Event :=
  if machineId = "" ∨ senderUserId = "" ∨ receiverUserId = "" then
    (st, [Event.session_error sock "Machine ID, Sender User ID, and Receiver User ID are required"])
  else if receiverOnlineCheck st.onlineUsers receiverUserId then
    let sessionData : SessionData :=
      { sessionId := newSessionId, machineId := machineId, senderUserId := senderUserId,
        receiverUserId := receiverUserId, createdAt := ts, messages := [],
        participants := [senderUserId, receiverUserId] }
    let st1 := { st with sessions := mset st.sessions newSessionId sessionData }
    let created := Event.session_created sock newSessionId sessionData
      ("Connected to " ++ receiverUserId ++ "! They are online and ready to receive messages.")
    match deliveryTarget st.userSessions st.activeConnections receiverUserId with
    | some rsock =>
        (st1, [created, Event.new_chat_session rsock newSessionId senderUserId
                 (senderUserId ++ " wants to start a chat with you!")])
    | none => (st1, [created])
  else
    (st, [Event.session_error sock
      (receiverUserId ++ " is not currently online. They need to get online first to receive messages.")])

/-- The message record built by `send_message` (server.js lines 471-478). -/
def mkUserMessage (newId senderUserId receiverUserId body ts machineId : String) : Message :=
  { id := newId, senderUserId := senderUserId, receiverUserId := receiverUserId,
    message := body, timestamp := ts, machineId := machineId, type := none }

/-- The `send_message` handler (server.js lines 452-508).  `writeOk` models
whether the `writeJson` of the rewritten session document succeeds; when it
throws, the catch block emits `message_error` and nothing else. -/
def sendMessage (st : ServerState) (sock : Nat)
    (sessionId senderUserId receiverUserId message machineId newId ts : String)
    (writeOk : Bool) : ServerState × List Event :=
  if sessionId = "" ∨ senderUserId = "" ∨ receiverUserId = "" ∨ message = "" ∨ machineId = "" then
    (st, [Event.message_error sock "All fields are required"])
  else
    match mget st.sessions sessionId with
    | none => (st, [Event.message_error sock "Chat session not found"])
    | some sessionData =>
      if writeOk then
        let newMessage := mkUserMessage newId senderUserId receiverUserId message ts machineId
        let updated := { sessionData with messages := sessionData.messages ++ [newMessage] }
        let st1 := { st with sessions := mset st.sessions sessionId updated }
        match deliveryTarget st.userSessions st.activeConnections receiverUserId with
        | some rsock =>
            (st1, [Event.message_sent sock newId sessionId,
                   Event.new_message rsock sessionId newMessage senderUserId])
        | none =>
            (st1, [Event.message_sent sock newId sessionId,
                   Event.receiver_unavailable sock
                     (receiverUserId ++ " is currently unavailable for messages") receiverUserId])
      else
        (st, [Event.message_error sock "Failed to send message"])

/-- The system message appended by `log_off` for a reachable counterpart
(server.js lines 548-556). -/
def offlineMessage (ident userId participantId ts : String) : Message :=
  { id := ident, senderUserId := "System", receiverUserId := participantId,
    message := userId ++ " has gone offline", timestamp := ts,
    machineId := "system", type := some "system" }

/-- The inner loop of `log_off` over the other participants of one session
(server.js lines 542-570): for each reachable participant, append a system
message to the session, rewrite the document, and emit `new_message`.
`n` threads the id supply `mkId` across generated messages. -/
def announceLoop (userId ts : String) (mkId : Nat → String)
    (us : List (String × String)) (ac : List (String × Nat)) :
    List String → SessionData → Nat → SessionData × List Event × Nat
  | [], s, n => (s, [], n)
  | p :: ps, s, n =>
    match deliveryTarget us ac p with
    | some psock =>
        let m := offlineMessage (mkId n) userId p ts
        let s1 := { s with messages := s.messages ++ [m] }
        let r := announceLoop userId ts mkId us ac ps s1 (n + 1)
        (r.1, Event.new_message psock s.sessionId m "System" :: r.2.1, r.2.2)
    | none => announceLoop userId ts mkId us ac ps s n

/-- The outer loop of `log_off` over all persisted sessions (server.js lines
522-571): sessions whose participants include the departing user run the
announcement loop; the rewritten document replaces the stored one. -/
def logOffSessions (userId ts : String) (mkId : Nat → String)
    (us : List (String × String)) (ac : List (String × Nat)) :
    List (String × SessionData) → Nat → List (String × SessionData) × List Event × Nat
  | [], n => ([], [], n)
  | (sid, s) :: rest, n =>
    if userId ∈ s.participants then
      let a := announceLoop userId ts mkId us ac (s.participants.filter (fun p => p != userId)) s n
      let r := logOffSessions userId ts mkId us ac rest a.2.2
      ((sid, a.1) :: r.1, a.2.1 ++ r.2.1, r.2.2)
    else
      let r := logOffSessions userId ts mkId us ac rest n
      ((sid, s) :: r.1, r.2.1, r.2.2)

/-- The `log_off` handler (server.js lines 511-591), success path of storage.
Note that it never checks that `(machineId, userId)` is registered or that it
belongs to the calling socket; after the announcements it deletes the user
from the snapshot and both in-memory maps and emits `log_off_success`. -/
def logOff (st : ServerState) (sock : Nat) (machineId userId ts : String)
    (mkId : Nat → String) : ServerState × List Event :=
  if machineId = "" ∨ userId = "" then
    (st, [Event.log_off_error sock "Machine ID and User ID are required"])
  else
    let r := logOffSessions userId ts mkId st.userSessions st.activeConnections st.sessions 0
    ({ st with
        sessions := r.1,
        onlineUsers := updateOnlineUsers st.onlineUsers userId machineId sock ts false,
        activeConnections := mdel st.activeConnections machineId,
        userSessions := mdel st.userSessions userId },
     r.2.1 ++ [Event.log_off_success sock "Successfully logged off" userId machineId])

/-- Reverse lookup of the `disconnect` handler: first machineId whose stored
socket is the dropped one (server.js lines 598-600). -/
def findMachineBySocket (ac : List (String × Nat)) (sock : Nat) : Option String :=
  (ac.find? (fun e => e.2 == sock)).map (fun e => e.1)

/-- Reverse lookup of the `disconnect` handler: first userId mapped to the
given machineId (server.js lines 603-604). -/
def findUserByMachine (us : List (String × String)) (machineId : String) : Option String :=
  (us.find? (fun e => e.2 == machineId)).map (fun e => e.1)

/-- The `disconnect` handler (server.js lines 594-620): removes the matching
machine from `activeConnections`, then the first user mapped to it from
`userSessions` and from the persisted snapshot.  It emits no events and never
touches the session documents. -/
def disconnect (st : ServerState) (sock : Nat) : ServerState × List Event :=
  match findMachineBySocket st.activeConnections sock with
  | none => (st, [])
  | some machineId =>
    match findUserByMachine st.userSessions machineId with
    | none => ({ st with activeConnections := mdel st.activeConnections machineId }, [])
    | some userId =>
        ({ st with
            activeConnections := mdel st.activeConnections machineId,
            userSessions := mdel st.userSessions userId,
            onlineUsers := mdel st.onlineUsers userId }, [])

/-- One client-originated lifecycle action for the registry state machine. -/
inductive Act where
  | reg (sock : Nat) (machineId userId ts : String)
  | logoff (sock : Nat) (machineId userId ts : String) (mkId : Nat → String)
  | disc (sock : Nat)

/-- State transition of one lifecycle action. -/
def step (st : ServerState) : Act → ServerState
  | Act.reg sock m u ts => (registerUser st sock m u ts).1
  | Act.logoff sock m u ts mkId => (logOff st sock m u ts mkId).1
  | Act.disc sock => (disconnect st sock).1

/-- Run a sequence of lifecycle actions from a state. -/
def runActs (st : ServerState) (acts : List Act) : ServerState :=
  acts.foldl step st

/-- The payload of one sequential `send_message` request. -/
structure SendReq where
  senderUserId : String
  receiverUserId : String
  message : String
  machineId : String
  newId : String
  ts : String
deriving DecidableEq

/-- All required fields of a send request are non-empty (JS truthy). -/
def validReq (r : SendReq) : Prop :=
  r.senderUserId ≠ "" ∧ r.receiverUserId ≠ "" ∧ r.message ≠ "" ∧ r.machineId ≠ ""

instance (r : SendReq) : Decidable (validReq r) := by
  unfold validReq
  infer_instance

/-- The stored message a send request produces. -/
def reqMessage (r : SendReq) : Message :=
  mkUserMessage r.newId r.senderUserId r.receiverUserId r.message r.ts r.machineId

/-- Run a list of `send_message` requests sequentially against one session,
all with successful storage writes. -/
def runSends (sock : Nat) (sid : String) : ServerState → List SendReq → ServerState
  | st, [] => st
  | st, r :: rs =>
      runSends sock sid
        (sendMessage st sock sid r.senderUserId r.receiverUserId
          r.message r.machineId r.newId r.ts true).1 rs

/-- Concrete empty session between alice and bob. -/
def exSd : SessionData :=
  { sessionId := "s1", machineId := "MA", senderUserId := "alice",
    receiverUserId := "bob", createdAt := "t0", messages := [],
    participants := ["alice", "bob"] }

/-- Concrete state: alice registered, session s1 stored, bob not connected. -/
def exStSess : ServerState :=
  { activeConnections := [("MA", 1)],
    userSessions := [("alice", "MA")],
    sessions := [("s1", exSd)],
    onlineUsers := [] }

/-- Concrete state: alice and bob both registered, session s1 stored. -/
def exStLive : ServerState :=
  { activeConnections := [("MA", 1), ("MB", 2)],
    userSessions := [("alice", "MA"), ("bob", "MB")],
    sessions := [("s1", exSd)],
    onlineUsers := [] }

/-- Concrete state: alice and bob both registered and both in the persisted
snapshot, with session s1 between them. -/
def exStBoth : ServerState :=
  { activeConnections := [("MA", 1), ("MB", 2)],
    userSessions := [("alice", "MA"), ("bob", "MB")],
    sessions := [("s1", exSd)],
    onlineUsers :=
      [("alice", { machineId := "MA", socketId := 1, lastSeen := "t0", status := "online" }),
       ("bob", { machineId := "MB", socketId := 2, lastSeen := "t0", status := "online" })] }

/-- A message body one character longer than the configured maximum. -/
def overlongBody : String := String.mk (List.replicate (MAX_MESSAGE_LENGTH + 1) 'a')

/-- Concrete state: bob registered on machine MB with socket 2. -/
def exStBob : ServerState :=
  { activeConnections := [("MB", 2)],
    userSessions := [("bob", "MB")],
    sessions := [],
    onlineUsers := [("bob", { machineId := "MB", socketId := 2, lastSeen := "t0", status := "online" })] }

theorem getLast?_append_one {α : Type} (l : List α) (a : α) :
    (l ++ [a]).getLast? = some a := by
  induction l with
  | nil => rfl
  | cons b bs ih =>
    rw [List.cons_append]
    cases hbs : bs ++ [a] with
    | nil => exact absurd hbs (by simp)
    | cons c cs =>
      rw [List.getLast?_cons_cons]
      rw [hbs] at ih
      exact ih

theorem sendMessage_sessions_of_valid
    (st : ServerState) (sock : Nat) (sid su ru msg mid newId ts : String)
    (sd : SessionData)
    (h1 : sid ≠ "") (h2 : su ≠ "") (h3 : ru ≠ "") (h4 : msg ≠ "") (h5 : mid ≠ "")
    (hs : mget st.sessions sid = some sd) :
    (sendMessage st sock sid su ru msg mid newId ts true).1.sessions
      = mset st.sessions sid
          { sd with messages := sd.messages ++ [mkUserMessage newId su ru msg ts mid] } := by
  cases hd : deliveryTarget st.userSessions st.activeConnections ru <;>
    simp [sendMessage, h1, h2, h3, h4, h5, hs, hd]

theorem step_nodup_userSessions (st : ServerState) (a : Act)
    (h : (keys st.userSessions).Nodup) : (keys (step st a).userSessions).Nodup := by
  cases a with
  | reg sock m u ts =>
    by_cases hv : m = "" ∨ u = ""
    · simpa [step, registerUser, hv] using h
    · simpa [step, registerUser, hv] using nodup_keys_mset st.userSessions u m h
  | logoff sock m u ts mkId =>
    by_cases hv : m = "" ∨ u = ""
    · simpa [step, logOff, hv] using h
    · simpa [step, logOff, hv] using nodup_keys_mdel st.userSessions u h
  | disc sock =>
    cases hf : findMachineBySocket st.activeConnections sock with
    | none => simpa [step, disconnect, hf] using h
    | some mid =>
      cases hg : findUserByMachine st.userSessions mid with
      | none => simpa [step, disconnect, hf, hg] using h
      | some uid =>
        simpa [step, disconnect, hf, hg] using nodup_keys_mdel st.userSessions uid h

theorem runActs_nodup_userSessions (acts : List Act) (st : ServerState)
    (h : (keys st.userSessions).Nodup) : (keys (runActs st acts).userSessions).Nodup := by
  induction acts generalizing st with
  | nil => exact h
  | cons a rest ih => exact ih (step st a) (step_nodup_userSessions st a h)

/-- C8: going offline is idempotent: the offline branch of `updateOnlineUsers`
deletes the user's entry from the snapshot, deleting twice equals deleting
once, the second call raises no error on the absent key, and
`updateOnlineUsers` emits no socket events at all (so the second call emits no
additional system messages). -/
theorem setOffline_idempotent (ou : List (String × OnlineRecord))
    (u m : String) (sockId : Nat) (ts1 ts2 : String) :
    updateOnlineUsers (updateOnlineUsers ou u m sockId ts1 false) u m sockId ts2 false
      = updateOnlineUsers ou u m sockId ts1 false := by
  simp only [updateOnlineUsers, if_neg (Bool.false_ne_true)]
  exact mdel_idem ou u

/-- C10: `log_off` performs no ownership or registration check: for any state
and any non-empty pair, the success path deletes the user from the persisted
snapshot, the machine and the user from the in-memory maps, and ends with
`log_off_success` — any connected client can take any user offline. -/
theorem logOff_unchecked_removal (st : ServerState) (sock : Nat)
    (machineId userId ts : String) (mkId : Nat → String)
    (hm : machineId ≠ "") (hu : userId ≠ "") :
    mget (logOff st sock machineId userId ts mkId).1.onlineUsers userId = none ∧
    mget (logOff st sock machineId userId ts mkId).1.activeConnections machineId = none ∧
    mget (logOff st sock machineId userId ts mkId).1.userSessions userId = none ∧
    (logOff st sock machineId userId ts mkId).2.getLast?
      = some (Event.log_off_success sock "Successfully logged off" userId machineId) := by
  simp only [logOff, hm, hu, or_self, if_neg, updateOnlineUsers,
    if_neg (Bool.false_ne_true), false_or, or_false]
  refine ⟨mget_mdel_self _ _, mget_mdel_self _ _, mget_mdel_self _ _, ?_⟩
  exact getLast?_append_one _ _

theorem logOff_unchecked_removal_witness :
    mget (logOff exStBob 5 "MB" "bob" "t1" (fun n => "sys" ++ toString n)).1.onlineUsers
        "bob" = none ∧
    mget (logOff exStBob 5 "MB" "bob" "t1" (fun n => "sys" ++ toString n)).1.activeConnections
        "MB" = none ∧
    mget (logOff exStBob 5 "MB" "bob" "t1" (fun n => "sys" ++ toString n)).1.userSessions
        "bob" = none ∧
    (logOff exStBob 5 "MB" "bob" "t1" (fun n => "sys" ++ toString n)).2.getLast?
      = some (Event.log_off_success 5 "Successfully logged off" "bob" "MB") :=
  logOff_unchecked_removal exStBob 5 "MB" "bob" "t1" _ (by decide) (by decide)

/-- C5 counterexample: the claimed invariant "at most one userId maps to any
given machineId, a later registration supersedes the earlier user's mapping"
fails: registering alice and then bob on the same machine leaves both user
mappings in `userSessions`. -/
theorem userSessions_shared_machine_cx :
    mget (runActs initState [Act.reg 1 "M" "alice" "t1", Act.reg 2 "M" "bob" "t2"]).userSessions
        "alice" = some "M" ∧
    mget (runActs initState [Act.reg 1 "M" "alice" "t1", Act.reg 2 "M" "bob" "t2"]).userSessions
        "bob" = some "M" ∧
    "alice" ≠ "bob" := by
  refine ⟨?_, ?_, by decide⟩ <;> rfl

/-- C5 (amended): after any sequence of register_user, log_off and disconnect
events, each userId maps to at most one machineId (the user-session map keeps
its keys unique), and a later registration of the same userId supersedes that
user's earlier mapping; multiple userIds may simultaneously map to the same
machineId. -/
theorem userSessions_per_user_unique (acts : List Act) :
    (keys (runActs initState acts).userSessions).Nodup ∧
    ∀ (st : ServerState) (sock : Nat) (m u ts : String), m ≠ "" → u ≠ "" →
      mget (registerUser st sock m u ts).1.userSessions u = some m := by
  refine ⟨runActs_nodup_userSessions acts initState (by simp [initState, keys]), ?_⟩
  intro st sock m u ts hm hu
  simp only [registerUser, hm, hu, or_self, if_neg, false_or, or_false]
  exact mget_mset_self st.userSessions u m

theorem userSessions_per_user_unique_witness :
    (keys (runActs initState [Act.reg 1 "M" "alice" "t1"]).userSessions).Nodup ∧
    mget (registerUser initState 1 "M" "alice" "t1").1.userSessions "alice" = some "M" :=
  ⟨(userSessions_per_user_unique [Act.reg 1 "M" "alice" "t1"]).1,
   (userSessions_per_user_unique []).2 initState 1 "M" "alice" "t1" (by decide) (by decide)⟩

/-- C1: on an existing session, `message_sent` is emitted only together with a
durably rewritten session document holding the appended message (so only when
the storage write succeeded), and a failed write yields exactly a
`message_error` with no `message_sent` for that request. -/
theorem sendMessage_ack_durability
    (st : ServerState) (sock : Nat) (sid su ru msg mid newId ts : String)
    (writeOk : Bool) (sd : SessionData)
    (h1 : sid ≠ "") (h2 : su ≠ "") (h3 : ru ≠ "") (h4 : msg ≠ "") (h5 : mid ≠ "")
    (hs : mget st.sessions sid = some sd) :
    (Event.message_sent sock newId sid
        ∈ (sendMessage st sock sid su ru msg mid newId ts writeOk).2 →
      writeOk = true ∧
      mget (sendMessage st sock sid su ru msg mid newId ts writeOk).1.sessions sid =
        some { sd with messages := sd.messages ++ [mkUserMessage newId su ru msg ts mid] }) ∧
    (writeOk = false →
      sendMessage st sock sid su ru msg mid newId ts writeOk
        = (st, [Event.message_error sock "Failed to send message"])) := by
  cases writeOk with
  | false =>
    constructor
    · intro hmem
      simp [sendMessage, h1, h2, h3, h4, h5, hs] at hmem
    · intro _
      simp [sendMessage, h1, h2, h3, h4, h5, hs]
  | true =>
    constructor
    · intro _
      refine ⟨rfl, ?_⟩
      rw [sendMessage_sessions_of_valid st sock sid su ru msg mid newId ts sd h1 h2 h3 h4 h5 hs]
      exact mget_mset_self _ _ _
    · intro h
      exact absurd h (by simp)

theorem sendMessage_ack_durability_witness :
    mget (sendMessage exStSess 1 "s1" "alice" "bob" "hi" "MA" "m1" "t1" true).1.sessions "s1"
      = some { exSd with messages := [mkUserMessage "m1" "alice" "bob" "hi" "t1" "MA"] } :=
  ((sendMessage_ack_durability exStSess 1 "s1" "alice" "bob" "hi" "MA" "m1" "t1" true exSd
      (by decide) (by decide) (by decide) (by decide) (by decide) rfl).1 (by decide)).2

/-- C7: on an accepted send with successful storage, a live receiver (its
machineId in `userSessions` present in `activeConnections`) gets exactly one
`new_message` while the sender gets exactly one `message_sent` and no
`receiver_unavailable`; without a live receiver the sender gets exactly one
`receiver_unavailable` and no `new_message` is emitted. -/
theorem sendMessage_delivery_exact
    (st : ServerState) (sock : Nat) (sid su ru msg mid newId ts : String)
    (sd : SessionData)
    (h1 : sid ≠ "") (h2 : su ≠ "") (h3 : ru ≠ "") (h4 : msg ≠ "") (h5 : mid ≠ "")
    (hs : mget st.sessions sid = some sd) :
    (∀ rsock, deliveryTarget st.userSessions st.activeConnections ru = some rsock →
       (sendMessage st sock sid su ru msg mid newId ts true).2 =
         [Event.message_sent sock newId sid,
          Event.new_message rsock sid (mkUserMessage newId su ru msg ts mid) su]) ∧
    (deliveryTarget st.userSessions st.activeConnections ru = none →
       (sendMessage st sock sid su ru msg mid newId ts true).2 =
         [Event.message_sent sock newId sid,
          Event.receiver_unavailable sock
            (ru ++ " is currently unavailable for messages") ru]) := by
  constructor
  · intro rsock hd
    simp [sendMessage, h1, h2, h3, h4, h5, hs, hd]
  · intro hd
    simp [sendMessage, h1, h2, h3, h4, h5, hs, hd]

theorem sendMessage_delivery_exact_witness :
    (sendMessage exStLive 1 "s1" "alice" "bob" "hello" "MA" "m2" "t2" true).2 =
      [Event.message_sent 1 "m2" "s1",
       Event.new_message 2 "s1" (mkUserMessage "m2" "alice" "bob" "hello" "t2" "MA") "alice"] :=
  (sendMessage_delivery_exact exStLive 1 "s1" "alice" "bob" "hello" "MA" "m2" "t2" exSd
      (by decide) (by decide) (by decide) (by decide) (by decide) rfl).1 2 (by decide)

/-- C9: an accepted send whose receiver has no live connection still appends
the message to the stored session record, and the sender receives
`message_sent` followed by `receiver_unavailable` — the latter never means the
message was dropped from storage. -/
theorem sendMessage_offline_persisted
    (st : ServerState) (sock : Nat) (sid su ru msg mid newId ts : String)
    (sd : SessionData)
    (h1 : sid ≠ "") (h2 : su ≠ "") (h3 : ru ≠ "") (h4 : msg ≠ "") (h5 : mid ≠ "")
    (hs : mget st.sessions sid = some sd)
    (hoff : deliveryTarget st.userSessions st.activeConnections ru = none) :
    mget (sendMessage st sock sid su ru msg mid newId ts true).1.sessions sid =
      some { sd with messages := sd.messages ++ [mkUserMessage newId su ru msg ts mid] } ∧
    (sendMessage st sock sid su ru msg mid newId ts true).2 =
      [Event.message_sent sock newId sid,
       Event.receiver_unavailable sock
         (ru ++ " is currently unavailable for messages") ru] := by
  constructor
  · rw [sendMessage_sessions_of_valid st sock sid su ru msg mid newId ts sd h1 h2 h3 h4 h5 hs]
    exact mget_mset_self _ _ _
  · simp [sendMessage, h1, h2, h3, h4, h5, hs, hoff]

theorem sendMessage_offline_persisted_witness :
    mget (sendMessage exStSess 1 "s1" "alice" "bob" "are you there" "MA" "m3" "t3" true).1.sessions
        "s1" = some { exSd with
          messages := [mkUserMessage "m3" "alice" "bob" "are you there" "t3" "MA"] } ∧
    (sendMessage exStSess 1 "s1" "alice" "bob" "are you there" "MA" "m3" "t3" true).2 =
      [Event.message_sent 1 "m3" "s1",
       Event.receiver_unavailable 1 "bob is currently unavailable for messages" "bob"] :=
  sendMessage_offline_persisted exStSess 1 "s1" "alice" "bob" "are you there" "MA" "m3" "t3" exSd
    (by decide) (by decide) (by decide) (by decide) (by decide) rfl (by decide)

theorem runSends_mget (sock : Nat) (sid : String) (h0 : sid ≠ "") (reqs : List SendReq) :
    ∀ (st : ServerState) (sd : SessionData),
      mget st.sessions sid = some sd →
      (∀ r ∈ reqs, validReq r) →
      mget (runSends sock sid st reqs).sessions sid =
        some { sd with messages := sd.messages ++ reqs.map reqMessage } := by
  induction reqs with
  | nil =>
    intro st sd hs _
    simpa [runSends] using hs
  | cons r rs ih =>
    intro st sd hs hv
    obtain ⟨ha, hb, hc, hd⟩ := hv r (List.mem_cons_self r rs)
    have hsess := sendMessage_sessions_of_valid st sock sid r.senderUserId r.receiverUserId
      r.message r.machineId r.newId r.ts sd h0 ha hb hc hd hs
    have hs2 : mget (sendMessage st sock sid r.senderUserId r.receiverUserId
        r.message r.machineId r.newId r.ts true).1.sessions sid
          = some { sd with messages := sd.messages ++ [reqMessage r] } := by
      rw [hsess]
      exact mget_mset_self _ _ _
    have hrec := ih _ _ hs2 (fun x hx => hv x (List.mem_cons_of_mem r hx))
    rw [runSends, hrec]
    simp [List.append_assoc, reqMessage]

/-- C6: appending N messages sequentially via accepted `send_message` calls
yields a stored record whose `messages` is exactly the list of the N sent
messages in acceptance order: none lost, none reordered. -/
theorem sendMessage_sequential_append (sock : Nat) (sid : String) (st : ServerState)
    (sd : SessionData) (reqs : List SendReq)
    (h0 : sid ≠ "") (hs : mget st.sessions sid = some sd) (he : sd.messages = [])
    (hv : ∀ r ∈ reqs, validReq r) :
    mget (runSends sock sid st reqs).sessions sid
      = some { sd with messages := reqs.map reqMessage } ∧
    (mget (runSends sock sid st reqs).sessions sid).map (fun s => s.messages.length)
      = some reqs.length := by
  have h := runSends_mget sock sid h0 reqs st sd hs hv
  rw [he] at h
  rw [List.nil_append] at h
  refine ⟨h, ?_⟩
  rw [h]
  simp

theorem sendMessage_sequential_append_witness :
    mget (runSends 1 "s1" exStSess
        [⟨"alice", "bob", "one", "MA", "m1", "t1"⟩, ⟨"alice", "bob", "two", "MA", "m2", "t2"⟩]).sessions
        "s1"
      = some { exSd with
          messages := [mkUserMessage "m1" "alice" "bob" "one" "t1" "MA",
                       mkUserMessage "m2" "alice" "bob" "two" "t2" "MA"] } ∧
    (mget (runSends 1 "s1" exStSess
        [⟨"alice", "bob", "one", "MA", "m1", "t1"⟩, ⟨"alice", "bob", "two", "MA", "m2", "t2"⟩]).sessions
        "s1").map (fun s => s.messages.length) = some 2 :=
  sendMessage_sequential_append 1 "s1" exStSess exSd
    [⟨"alice", "bob", "one", "MA", "m1", "t1"⟩, ⟨"alice", "bob", "two", "MA", "m2", "t2"⟩]
    (by decide) rfl rfl (by decide)

/-- C2: `create_chat_session` with non-empty identifiers is gated purely by
the persisted snapshot (here quantified over arbitrary in-memory maps): a
receiver without an online snapshot entry yields `session_error` and leaves
the state untouched; with one, a fresh session document with empty `messages`
and participants `[sender, receiver]` is stored and `session_created` is the
first emitted event. -/
theorem createChatSession_receiver_gate
    (ac : List (String × Nat)) (us : List (String × String))
    (ss : List (String × SessionData)) (ou : List (String × OnlineRecord))
    (sock : Nat) (mid su ru nsid ts : String)
    (h1 : mid ≠ "") (h2 : su ≠ "") (h3 : ru ≠ "") :
    (receiverOnlineCheck ou ru = false →
        createChatSession ⟨ac, us, ss, ou⟩ sock mid su ru nsid ts
          = (⟨ac, us, ss, ou⟩,
             [Event.session_error sock
               (ru ++ " is not currently online. They need to get online first to receive messages.")])) ∧
    (receiverOnlineCheck ou ru = true →
        mget (createChatSession ⟨ac, us, ss, ou⟩ sock mid su ru nsid ts).1.sessions nsid
          = some ⟨nsid, mid, su, ru, ts, [], [su, ru]⟩ ∧
        (createChatSession ⟨ac, us, ss, ou⟩ sock mid su ru nsid ts).2.head?
          = some (Event.session_created sock nsid ⟨nsid, mid, su, ru, ts, [], [su, ru]⟩
              ("Connected to " ++ ru ++ "! They are online and ready to receive messages."))) := by
  constructor
  · intro hoff
    simp [createChatSession, h1, h2, h3, hoff]
  · intro hon
    cases hd : deliveryTarget us ac ru <;>
      simp [createChatSession, h1, h2, h3, hon, hd, mget_mset_self]

theorem createChatSession_receiver_gate_witness :
    mget (createChatSession exStBob 3 "MA" "alice" "bob" "s9" "t1").1.sessions "s9"
        = some ⟨"s9", "MA", "alice", "bob", "t1", [], ["alice", "bob"]⟩ ∧
    createChatSession exStBob 3 "MA" "alice" "carol" "s9" "t1"
      = (exStBob, [Event.session_error 3
          "carol is not currently online. They need to get online first to receive messages."]) :=
  ⟨((createChatSession_receiver_gate exStBob.activeConnections exStBob.userSessions
        exStBob.sessions exStBob.onlineUsers 3 "MA" "alice" "bob" "s9" "t1"
        (by decide) (by decide) (by decide)).2 (by decide)).1,
   (createChatSession_receiver_gate exStBob.activeConnections exStBob.userSessions
        exStBob.sessions exStBob.onlineUsers 3 "MA" "alice" "carol" "s9" "t1"
        (by decide) (by decide) (by decide)).1 (by decide)⟩

/-- C3 counterexample: alice's connection drops while her counterpart bob is
live, yet the `disconnect` handler emits no event and leaves the stored
conversation untouched (zero system messages), whereas `log_off` from the very
same state appends one system message — disconnect does not perform the
log_off announcement sequence. -/
theorem disconnect_no_announcement_cx :
    deliveryTarget exStBoth.userSessions exStBoth.activeConnections "bob" = some 2 ∧
    (disconnect exStBoth 1).2 = [] ∧
    mget (disconnect exStBoth 1).1.sessions "s1" = some exSd ∧
    (mget (disconnect exStBoth 1).1.sessions "s1").map (fun s => s.messages.length) = some 0 ∧
    mget (disconnect exStBoth 1).1.onlineUsers "alice" = none ∧
    (mget (logOff exStBoth 1 "MA" "alice" "t1" (fun n => "sys" ++ toString n)).1.sessions
        "s1").map (fun s => s.messages.length) = some 1 := by
  refine ⟨rfl, rfl, rfl, rfl, rfl, rfl⟩

/-- C3 (amended): when the dropped connection maps back to a registered
`(machineId, userId)` pair, the `disconnect` handler removes the user from the
persisted snapshot and both in-memory maps, but — unlike `log_off` — it
appends no system message to any conversation and emits no event at all. -/
theorem disconnect_removes_presence_only (st : ServerState) (sock : Nat) (mid uid : String)
    (hm : findMachineBySocket st.activeConnections sock = some mid)
    (hu : findUserByMachine st.userSessions mid = some uid) :
    (disconnect st sock).1.activeConnections = mdel st.activeConnections mid ∧
    (disconnect st sock).1.userSessions = mdel st.userSessions uid ∧
    (disconnect st sock).1.onlineUsers = mdel st.onlineUsers uid ∧
    (disconnect st sock).1.sessions = st.sessions ∧
    (disconnect st sock).2 = [] := by
  simp [disconnect, hm, hu]

theorem disconnect_removes_presence_only_witness :
    (disconnect exStBoth 1).1.activeConnections = mdel exStBoth.activeConnections "MA" ∧
    (disconnect exStBoth 1).1.userSessions = mdel exStBoth.userSessions "alice" ∧
    (disconnect exStBoth 1).1.onlineUsers = mdel exStBoth.onlineUsers "alice" ∧
    (disconnect exStBoth 1).1.sessions = exStBoth.sessions ∧
    (disconnect exStBoth 1).2 = [] :=
  disconnect_removes_presence_only exStBoth 1 "MA" "alice" rfl rfl

/-- C4: the configured `MAX_MESSAGE_LENGTH` bound is never enforced by the
`send_message` handler: a body one character over the bound is accepted, the
handler emits `message_sent` (and `receiver_unavailable`, bob being offline)
with no `message_error`, and the over-length message is appended to the stored
session record — contradicting the documented "Maximum allowed message
length". -/
theorem overlong_message_accepted :
    overlongBody.length = MAX_MESSAGE_LENGTH + 1 ∧
    (sendMessage exStSess 1 "s1" "alice" "bob" overlongBody "MA" "m9" "t9" true).2 =
      [Event.message_sent 1 "m9" "s1",
       Event.receiver_unavailable 1 "bob is currently unavailable for messages" "bob"] ∧
    (mget (sendMessage exStSess 1 "s1" "alice" "bob" overlongBody "MA" "m9" "t9" true).1.sessions
        "s1").map (fun s => s.messages.length) = some 1 := by
  refine ⟨?_, ?_, ?_⟩
  · show (List.replicate (MAX_MESSAGE_LENGTH + 1) 'a').length = MAX_MESSAGE_LENGTH + 1
    exact List.length_replicate _ _
  · rfl
  · rfl

end PushServer
